import Mathlib

/-!
# Verification of the CSV Data Cleaner (src/app.py)

Shallow embedding of the row-normalization core of `src/app.py`:
the format detector `detect_csv_format`, the two reachable cleaning
functions `clean_client_task_data` and `clean_rota_schedule_data`, the
dispatcher `clean_csv_data`, and the `/clean` endpoint body `clean_data`.

Modelling conventions:
* A parsed CSV row (Python `dict` from `csv.DictReader`) is an association
  list from column name to raw cell text; `row.get(k)` is `getCol`, which
  returns `Option String` (`none` models Python `None`).
* Python truthiness of `row.get(k)` (`None` and `""` are falsy) is `falsy`.
* Output records are association lists from field name to `Option String`,
  in the order of the Python dict literal; every value the code stores is a
  string or `None`, so `Option String` covers all of them.
* Python string methods (`strip`, `split`, `lower`, `startswith`, slicing,
  `int(...)`) are embedded as structural recursion over the character list
  of the string, so that every definition evaluates inside proofs.
* Code that can raise returns `Except PyError`; a Python
  `try`/`except: pass` around a parse is an `Option`-valued parse whose
  `none` branch restores the pre-`try` value.
* `datetime(y, m, d)` validation and `.weekday()` (Monday = 0) are embedded
  with the proleptic-Gregorian ordinal-day formula used by CPython.
* The module defines no function named `clean_staff_task_data`: the text
  intended for it (src/app.py lines 196-246) sits after the `return` of
  `clean_rota_schedule_data` and is unreachable, so the dispatcher's call
  `clean_staff_task_data(rows)` raises `NameError` at run time.  The
  embedding of `clean_csv_data` records that outcome directly.
* CSV text parsing and HTTP payload extraction are external collaborators;
  the embedding starts from the parsed row list.
-/

/-! ## Python string primitives -/

/-- Rebuild a string from its character list. -/
def ofChars (l : List Char) : String := String.mk l

/-- Python `len(s)` in characters. -/
def pyLen (s : String) : Nat := s.data.length

/-- Python `s.strip()`: drop whitespace from both ends. -/
def pyStrip (s : String) : String :=
  ofChars (((s.data.dropWhile Char.isWhitespace).reverse.dropWhile Char.isWhitespace).reverse)

/-- Python `s.startswith(t)`. -/
def pyStartsWith (s t : String) : Bool := t.data.isPrefixOf s.data

/-- Python slicing `s[n:]` by character count. -/
def pyDropChars (s : String) (n : Nat) : String := ofChars (s.data.drop n)

/-- Python `c in s` for a single character. -/
def pyContainsChar (s : String) (c : Char) : Bool := s.data.contains c

/-- Python `s.lower()`. -/
def pyLower (s : String) : String := ofChars (s.data.map Char.toLower)

/-- Python `sep.join(parts)`. -/
def joinSep (sep : String) : List String → String
  | [] => ""
  | [x] => x
  | x :: xs => x ++ sep ++ joinSep sep xs

/-- Worker for `pyWords`: gather maximal non-whitespace runs. -/
def wordsAux : List Char → List Char → List String
  | [], cur => if cur.isEmpty then [] else [ofChars cur.reverse]
  | c :: cs, cur =>
    if c.isWhitespace then
      if cur.isEmpty then wordsAux cs [] else ofChars cur.reverse :: wordsAux cs []
    else wordsAux cs (c :: cur)

/-- Python `s.split()` with no argument: whitespace-delimited words,
    empties discarded. -/
def pyWords (s : String) : List String := wordsAux s.data []

/-- `' '.join(s.split())`, the idiom the source uses to remove extra
    spaces. -/
def collapseWS (s : String) : String := joinSep " " (pyWords s)

/-- Worker for `pySplitChar`. -/
def splitCharAux (sep : Char) : List Char → List Char → List String
  | [], cur => [ofChars cur.reverse]
  | c :: cs, cur =>
    if c == sep then ofChars cur.reverse :: splitCharAux sep cs []
    else splitCharAux sep cs (c :: cur)

/-- Python `s.split(sep)` for a one-character separator: splits at every
    occurrence, keeping empty pieces (so `"".split(sep) == [""]`). -/
def pySplitChar (s : String) (sep : Char) : List String := splitCharAux sep s.data []

/-- Accumulate a decimal numeral; any non-digit character fails. -/
def digitsVal : List Char → Nat → Option Nat
  | [], acc => some acc
  | c :: cs, acc => if c.isDigit then digitsVal cs (acc * 10 + (c.toNat - 48)) else none

/-- Value of a non-empty all-digit character list. -/
def pyNatOfDigits (l : List Char) : Option Nat :=
  if l.isEmpty then none else digitsVal l 0

/-- Python `int(s)` on a cell: optional surrounding whitespace, optional
    sign, then decimal digits; anything else raises, modelled as `none`. -/
def pyInt (s : String) : Option Int :=
  let t := pyStrip s
  if pyStartsWith t "-" then (pyNatOfDigits (t.data.drop 1)).map (fun n => -(n : Int))
  else if pyStartsWith t "+" then (pyNatOfDigits (t.data.drop 1)).map (fun n => (n : Int))
  else (pyNatOfDigits t.data).map (fun n => (n : Int))

/-! ## Rows and records -/

abbrev Row := List (String × String)

abbrev Rec := List (String × Option String)

/-- `row.get(k)`: value of column `k`, `none` when the column is absent. -/
def getCol (row : Row) (k : String) : Option String :=
  (row.find? (fun p => p.1 == k)).map (fun p => p.2)

/-- `k in row`: column-name membership test on a row (Python dict `in`). -/
def hasCol (row : Row) (k : String) : Bool :=
  row.any (fun p => p.1 == k)

/-- Python truthiness test `not row.get(k)`: `None` and `""` are falsy. -/
def falsy (v : Option String) : Bool :=
  v.getD "" == ""

/-! ## Dates and weekdays -/

/-- Gregorian leap-year rule. -/
def isLeap (y : Nat) : Bool :=
  (y % 4 == 0 && y % 100 != 0) || y % 400 == 0

/-- Days in month `m` of year `y` (month in 1..12). -/
def daysInMonth (y m : Nat) : Nat :=
  if m == 2 then (if isLeap y then 29 else 28)
  else if m == 4 || m == 6 || m == 9 || m == 11 then 30
  else 31

/-- Days before January 1 of year `y` in the proleptic Gregorian calendar. -/
def daysBeforeYear (y : Nat) : Nat :=
  365 * (y - 1) + (y - 1) / 4 + (y - 1) / 400 - (y - 1) / 100

/-- Days before the first of month `m` in year `y`. -/
def daysBeforeMonth (y m : Nat) : Nat :=
  ((List.range (m - 1)).map (fun i => daysInMonth y (i + 1))).foldl (fun a b => a + b) 0

/-- The weekday-name table of the source, Monday first. -/
def dayNames : List String :=
  ["Monday", "Tuesday", "Wednesday", "Thursday", "Friday", "Saturday", "Sunday"]

/-- `datetime(y, m, d).weekday()`: validates the date as the constructor
    does (year 1..9999, month 1..12, day within the month) and returns the
    weekday with Monday = 0; an invalid date raises, modelled as `none`. -/
def pyWeekday (y m d : Int) : Option Nat :=
  if 1 ≤ y ∧ y ≤ 9999 ∧ 1 ≤ m ∧ m ≤ 12 ∧ 1 ≤ d ∧
      d ≤ ((daysInMonth y.toNat m.toNat : Nat) : Int) then
    some ((daysBeforeYear y.toNat + daysBeforeMonth y.toNat m.toNat + d.toNat + 6) % 7)
  else none

/-- Shared tail of both day-of-week computations: `int` the three parts,
    build the `datetime`, index the weekday-name table. -/
def dayNameOf (y m d : String) : Option String := do
  let yi ← pyInt y
  let mi ← pyInt m
  let di ← pyInt d
  let w ← pyWeekday yi mi di
  dayNames.get? w

/-- The `try` block of `clean_client_task_data`: a date containing `/` is
    split as `YYYY/MM/DD` when the first token has four characters, else as
    `DD/MM/YYYY`; otherwise it is split on `-` as `YYYY-MM-DD`.  Any
    failure (wrong token count, non-numeric part, invalid date) is caught,
    modelled as `none`. -/
def tryDayOfWeekClient (date_str : String) : Option String := do
  let (y, m, d) ←
    if pyContainsChar date_str '/' then
      match pySplitChar date_str '/' with
      | [a, b, c] => some (if pyLen a == 4 then (a, b, c) else (c, b, a))
      | _ => none
    else
      match pySplitChar date_str '-' with
      | [a, b, c] => some (a, b, c)
      | _ => none
  dayNameOf y m d

/-- The `try` block of `clean_rota_schedule_data`: split the date on `/`
    and, only when exactly three parts result, read them as `DD/MM/YYYY`;
    failures are caught, modelled as `none`. -/
def tryDayOfWeekRota (date_str : String) : Option String :=
  match pySplitChar date_str '/' with
  | [d, m, y] => dayNameOf y m d
  | _ => none

/-! ## Errors -/

/-- The exceptions the embedded code can raise. -/
inductive PyError where
  | valueError (msg : String)
  | nameError (msg : String)
  | indexError
deriving Repr, DecidableEq

/-- `str(e)` for the errors the endpoint catches. -/
def errMsg : PyError → String
  | .valueError m => m
  | .nameError m => m
  | .indexError => "list index out of range"

/-! ## Source functions -/

/-- `detect_csv_format`: classify the first row by marker columns,
    first-match-wins, falling through to `"unknown"`. -/
def detect_csv_format (first_row : Row) : String :=
  if hasCol first_row "client_first_name" && hasCol first_row "client_last_name" &&
      hasCol first_row "carer_name" then
    "client_task_report"
  else if hasCol first_row "first_name" && hasCol first_row "last_name" &&
      hasCol first_row "first_name_1" then
    "staff_task_report"
  else if hasCol first_row "rota_id" && hasCol first_row "carer_id" &&
      hasCol first_row "client_id" then
    "rota_schedule"
  else
    "unknown"

/-- The `required` column list of `clean_client_task_data`. -/
def clean_client_task_required : List String :=
  ["client_id", "client_first_name", "client_last_name", "address",
   "carer_name", "task_date", "start_time", "end_time",
   "week_no", "dayname", "client_type"]

/-- The `alt_required` fallback column list of `clean_client_task_data`. -/
def clean_client_alt_required : List String :=
  ["client_id", "client_first_name", "client_last_name", "address"]

/-- The per-row admission test shared by both cleaning loops:
    `if not row.get('client_id'): continue`. -/
def acceptRow (row : Row) : Bool :=
  !(falsy (getCol row "client_id"))

/-- The honorific list of `clean_client_task_data`, in source order. -/
def staffTitles : List String :=
  ["Miss", "Ms", "Mr", "Mrs", "Dr", "Prof"]

/-- The title-stripping loop of `clean_client_task_data`: for each title in
    order, if the current name starts with `title + " "`, drop the title and
    strip. -/
def stripTitles (name : String) : String :=
  staffTitles.foldl
    (fun s t => if pyStartsWith s (t ++ " ") then pyStrip (pyDropChars s (pyLen t)) else s)
    name

/-- The loop body of `clean_client_task_data`: map one accepted row to its
    output record, in the key order of the source dict literal. -/
def clean_client_task_row (row : Row) : Rec :=
  let first_name := pyStrip ((getCol row "client_first_name").getD "")
  let last_name := pyStrip ((getCol row "client_last_name").getD "")
  let client_name := collapseWS (pyStrip (first_name ++ " " ++ last_name))
  let carer_name := stripTitles (pyStrip ((getCol row "carer_name").getD ""))
  let dayname := getCol row "dayname"
  let day_of_week : Option String :=
    if falsy dayname && !(falsy (getCol row "task_date")) then
      match tryDayOfWeekClient ((getCol row "task_date").getD "") with
      | some w => some w
      | none => dayname
    else dayname
  [("client_name", some client_name),
   ("address", some (pyStrip ((getCol row "address").getD ""))),
   ("client_id", getCol row "client_id"),
   ("staff_id", none),
   ("staff_name", some carer_name),
   ("start_date", getCol row "task_date"),
   ("start_time", getCol row "start_time"),
   ("end_date", getCol row "task_date"),
   ("end_time", getCol row "end_time"),
   ("week_number", getCol row "week_no"),
   ("day_of_week", day_of_week),
   ("client_type_text", getCol row "client_type"),
   ("visit_time", getCol row "visit_time"),
   ("charge", getCol row "charge"),
   ("service_name", getCol row "service_name"),
   ("completed", getCol row "completed"),
   ("cancelled", getCol row "cancelled")]

/-- `clean_client_task_data`: structural column check on the first row
    (`ValueError` when both the full and the fallback lists have missing
    columns), then filter rows with truthy `client_id` and map each to its
    record. `rows[0]` on an empty list raises `IndexError`. -/
def clean_client_task_data (rows : List Row) : Except PyError (List Rec) :=
  match rows with
  | [] => .error .indexError
  | first_row :: _ =>
    let missing := clean_client_task_required.filter (fun c => !(hasCol first_row c))
    let alt_missing := clean_client_alt_required.filter (fun c => !(hasCol first_row c))
    if missing ≠ [] ∧ alt_missing ≠ [] then
      .error (.valueError ("Missing essential client columns: " ++ joinSep ", " alt_missing))
    else
      .ok ((rows.filter acceptRow).map clean_client_task_row)

/-- The `required` column list of `clean_rota_schedule_data`. -/
def clean_rota_required : List String :=
  ["client_id", "title", "first_name", "last_name", "address_1",
   "address_2", "town", "postcode", "carer_id", "start_date",
   "start_time", "end_date", "end_time", "week_number", "client_type_text"]

/-- The `essential` fallback column list of `clean_rota_schedule_data`. -/
def clean_rota_essential : List String :=
  ["client_id", "start_date", "start_time", "end_date", "end_time"]

/-- The address-assembly loop of `clean_rota_schedule_data`: keep each of
    the four components that is present, truthy, non-blank after stripping
    and not the text `nan` (case-insensitive), stripped. -/
def rotaAddressParts (row : Row) : List String :=
  ["address_1", "address_2", "town", "postcode"].filterMap (fun k =>
    match getCol row k with
    | none => none
    | some s =>
      if s != "" && pyStrip s != "" && pyLower (pyStrip s) != "nan" then some (pyStrip s)
      else none)

/-- The loop body of `clean_rota_schedule_data`: map one accepted row to
    its output record, in the key order of the source dict literal. -/
def clean_rota_schedule_row (row : Row) : Rec :=
  let title := pyStrip ((getCol row "title").getD "")
  let first_name := pyStrip ((getCol row "first_name").getD "")
  let last_name := pyStrip ((getCol row "last_name").getD "")
  let client_name := collapseWS (pyStrip (title ++ " " ++ first_name ++ " " ++ last_name))
  let address := joinSep ", " (rotaAddressParts row)
  let day_of_week : Option String :=
    if !(falsy (getCol row "start_date")) then
      tryDayOfWeekRota ((getCol row "start_date").getD "")
    else none
  [("client_name", some client_name),
   ("address", some address),
   ("client_id", getCol row "client_id"),
   ("staff_id", getCol row "carer_id"),
   ("staff_name", none),
   ("start_date", getCol row "start_date"),
   ("start_time", getCol row "start_time"),
   ("end_date", getCol row "end_date"),
   ("end_time", getCol row "end_time"),
   ("week_number", getCol row "week_number"),
   ("day_of_week", day_of_week),
   ("client_type_text", getCol row "client_type_text")]

/-- `clean_rota_schedule_data`: structural column check (`ValueError` when
    both the full and the essential lists have missing columns), then the
    filter-and-map loop. -/
def clean_rota_schedule_data (rows : List Row) : Except PyError (List Rec) :=
  match rows with
  | [] => .error .indexError
  | first_row :: _ =>
    let missing := clean_rota_required.filter (fun c => !(hasCol first_row c))
    let missing_essential := clean_rota_essential.filter (fun c => !(hasCol first_row c))
    if missing ≠ [] ∧ missing_essential ≠ [] then
      .error (.valueError ("Missing essential columns: " ++ joinSep ", " missing_essential))
    else
      .ok ((rows.filter acceptRow).map clean_rota_schedule_row)

/-- Column names of a row, in order, for the diagnostic message. -/
def rowKeys (row : Row) : List String :=
  row.map (fun p => p.1)

/-- The message of the `NameError` raised by the staff-task dispatch branch:
    the module never binds the name `clean_staff_task_data`. -/
def staffTaskNameErrorMsg : String :=
  "name clean_staff_task_data is not defined"

/-- `clean_csv_data` on the parsed rows: empty input raises `ValueError`;
    otherwise detect the format on the first row and dispatch.  The
    staff-task branch calls the undefined `clean_staff_task_data` and so
    raises `NameError`; an unknown format raises `ValueError` naming the
    available columns. -/
def clean_csv_data (rows : List Row) : Except PyError (List Rec × String) :=
  match rows with
  | [] => .error (.valueError "No data found in CSV")
  | first_row :: _ =>
    let fmt := detect_csv_format first_row
    if fmt = "client_task_report" then
      (clean_client_task_data rows).map (fun l => (l, fmt))
    else if fmt = "staff_task_report" then
      .error (.nameError staffTaskNameErrorMsg)
    else if fmt = "rota_schedule" then
      (clean_rota_schedule_data rows).map (fun l => (l, fmt))
    else
      .error (.valueError ("Unknown CSV format. Available columns: " ++
        joinSep ", " (rowKeys first_row)))

/-- Outcome of the `/clean` endpoint body after payload extraction: either
    the success JSON (row counts, detected format, cleaned records) served
    with HTTP 200, or an error JSON with the HTTP status the handler sets —
    the catch-all `except` turns every exception into status 500. -/
inductive CleanResult where
  | success (original_rows cleaned_rows : Nat) (fmt : String) (data : List Rec)
  | failure (statusCode : Nat) (error : String)
deriving Repr, DecidableEq

/-- The `/clean` handler body on the parsed rows: run `clean_csv_data`;
    on success report `original_rows` and `cleaned_rows` with the data, on
    any exception return status 500 with `str(e)`. -/
def clean_data (rows : List Row) : CleanResult :=
  match clean_csv_data rows with
  | .ok (cleaned, fmt) => .success rows.length cleaned.length fmt cleaned
  | .error e => .failure 500 (errMsg e)

/-- HTTP status of a `/clean` response. -/
def resultStatus : CleanResult → Nat
  | .success _ _ _ _ => 200
  | .failure s _ => s

/-! ## Helper lemmas -/

deriving instance DecidableEq for Except

theorem filter_not_nil_of_all (l : List String) (p : String → Bool) (h : l.all p = true) :
    l.filter (fun c => !(p c)) = [] := by
  induction l with
  | nil => rfl
  | cons a t ih =>
    simp only [List.all_cons, Bool.and_eq_true] at h
    simp [List.filter_cons, h.1, ih h.2]

theorem clean_client_task_data_ok_shape (rows : List Row) (l : List Rec)
    (h : clean_client_task_data rows = .ok l) :
    l = (rows.filter acceptRow).map clean_client_task_row := by
  cases rows with
  | nil => simp [clean_client_task_data] at h
  | cons a t =>
    simp only [clean_client_task_data] at h
    split at h
    · simp at h
    · injection h with h
      exact h.symm

theorem clean_rota_schedule_data_ok_shape (rows : List Row) (l : List Rec)
    (h : clean_rota_schedule_data rows = .ok l) :
    l = (rows.filter acceptRow).map clean_rota_schedule_row := by
  cases rows with
  | nil => simp [clean_rota_schedule_data] at h
  | cons a t =>
    simp only [clean_rota_schedule_data] at h
    split at h
    · simp at h
    · injection h with h
      exact h.symm

theorem lookup_cancelled_client_row (row : Row) :
    List.lookup "cancelled" (clean_client_task_row row) = some (getCol row "cancelled") := rfl

theorem lookup_staff_id_rota_row (row : Row) :
    List.lookup "staff_id" (clean_rota_schedule_row row) = some (getCol row "carer_id") := rfl

/-! ## Claim C1 -/

def c1Row : Row := [("first_name", "A"), ("last_name", "B"), ("first_name_1", "C")]

/-- C1: for every CSV whose first row contains `first_name`, `last_name`
    and `first_name_1` and is detected as the `staff_task_report` layout,
    `clean_csv_data` raises a `NameError` (the name `clean_staff_task_data`
    is never defined), so the `/clean` request returns HTTP 500 and never
    any cleaned data. -/
theorem C1_staff_task_dispatch_name_error (first : Row) (rest : List Row)
    (h1 : hasCol first "first_name" = true)
    (h2 : hasCol first "last_name" = true)
    (h3 : hasCol first "first_name_1" = true)
    (h4 : detect_csv_format first = "staff_task_report") :
    clean_csv_data (first :: rest) = .error (.nameError staffTaskNameErrorMsg) ∧
    clean_data (first :: rest) = .failure 500 staffTaskNameErrorMsg := by
  have hcsv : clean_csv_data (first :: rest) = .error (.nameError staffTaskNameErrorMsg) := by
    simp [clean_csv_data, h4]
  exact ⟨hcsv, by simp [clean_data, hcsv, errMsg]⟩

/-- C1 witness: a concrete one-row staff-task CSV hits the `NameError`. -/
theorem C1_staff_task_dispatch_name_error_witness :
    clean_csv_data [c1Row] = .error (.nameError staffTaskNameErrorMsg) ∧
    clean_data [c1Row] = .failure 500 staffTaskNameErrorMsg :=
  C1_staff_task_dispatch_name_error c1Row [] (by decide) (by decide) (by decide) (by decide)

/-! ## Claim C2 -/

def c2Row : Row :=
  [("client_id", "abc"), ("start_date", "25/12/2024"), ("start_time", "08:00"),
   ("end_date", "25/12/2024"), ("end_time", "09:00"), ("week_number", "xyz")]

/-- C2 counterexample: an accepted rota row with non-numeric `client_id`
    `"abc"` and non-numeric `week_number` `"xyz"` is mapped with both raw
    texts passed through unchanged — neither becomes the integer 0. -/
theorem C2_counterexample_no_numeric_coercion :
    clean_rota_schedule_data [c2Row] =
      .ok [[("client_name", some ""), ("address", some ""),
            ("client_id", some "abc"), ("staff_id", none), ("staff_name", none),
            ("start_date", some "25/12/2024"), ("start_time", some "08:00"),
            ("end_date", some "25/12/2024"), ("end_time", some "09:00"),
            ("week_number", some "xyz"), ("day_of_week", some "Wednesday"),
            ("client_type_text", none)]] ∧
    "xyz" ≠ "0" ∧ "abc" ≠ "0" :=
  ⟨by decide, by decide, by decide⟩

/-- C2 (amended): the output `client_id` and `week_number` fields carry the
    raw cell value unchanged (absent columns give `none`); no integer
    coercion or defaulting to 0 ever happens. -/
theorem C2_amended_id_and_week_passthrough (row : Row) :
    List.lookup "client_id" (clean_rota_schedule_row row) = some (getCol row "client_id") ∧
    List.lookup "week_number" (clean_rota_schedule_row row) = some (getCol row "week_number") ∧
    List.lookup "client_id" (clean_client_task_row row) = some (getCol row "client_id") ∧
    List.lookup "week_number" (clean_client_task_row row) = some (getCol row "week_no") :=
  ⟨rfl, rfl, rfl, rfl⟩

/-! ## Claim C3 -/

def c3Row : Row :=
  [("client_id", "9"), ("start_date", "25/12/2024"), ("start_time", "10:00"),
   ("end_date", "25/12/2024"), ("end_time", "11:00")]

/-- C3 counterexample: an accepted rota row whose date is `"25/12/2024"`
    keeps that exact text in the output `start_date`; it is not rewritten
    to `"2024-12-25"` (the slash date is only parsed for `day_of_week`). -/
theorem C3_counterexample_date_not_rewritten :
    clean_rota_schedule_data [c3Row] =
      .ok [[("client_name", some ""), ("address", some ""),
            ("client_id", some "9"), ("staff_id", none), ("staff_name", none),
            ("start_date", some "25/12/2024"), ("start_time", some "10:00"),
            ("end_date", some "25/12/2024"), ("end_time", some "11:00"),
            ("week_number", none), ("day_of_week", some "Wednesday"),
            ("client_type_text", none)]] ∧
    "25/12/2024" ≠ "2024-12-25" :=
  ⟨by decide, by decide⟩

/-- C3 (amended): the date cell is copied into `start_date` unchanged for
    every row — parse success or failure alike — so no rewriting to ISO
    form ever happens and no exception is raised. -/
theorem C3_amended_start_date_passthrough (row : Row) :
    List.lookup "start_date" (clean_rota_schedule_row row) = some (getCol row "start_date") ∧
    List.lookup "start_date" (clean_client_task_row row) = some (getCol row "task_date") :=
  ⟨rfl, rfl⟩

/-! ## Claim C4 -/

def c4Row : Row :=
  [("client_id", "7"), ("client_first_name", "Jane"), ("client_last_name", "Doe"),
   ("address", "1 Road"), ("cancelled", "Y")]

def c4L : List Rec := ([c4Row].filter acceptRow).map clean_client_task_row

/-- C4 counterexample: a client-task row whose cancellation flag is `"Y"`
    is not rejected — it is mapped into the output (with the `cancelled`
    value even copied along), because no validator ever looks at the
    cancellation flag. -/
theorem C4_counterexample_cancelled_row_kept :
    clean_client_task_data [c4Row] =
      .ok [[("client_name", some "Jane Doe"), ("address", some "1 Road"),
            ("client_id", some "7"), ("staff_id", none), ("staff_name", some ""),
            ("start_date", none), ("start_time", none), ("end_date", none),
            ("end_time", none), ("week_number", none), ("day_of_week", none),
            ("client_type_text", none), ("visit_time", none), ("charge", none),
            ("service_name", none), ("completed", none), ("cancelled", some "Y")]] ∧
    getCol c4Row "cancelled" = some "Y" :=
  ⟨by decide, by decide⟩

/-- C4 (amended): no cancellation filter exists — a row whose cancellation
    flag equals `"Y"` is still mapped into the output whenever its
    `client_id` is non-empty, and the raw `cancelled` value is copied into
    the output record. -/
theorem C4_amended_no_cancellation_filter (rows : List Row) (l : List Rec) (row : Row)
    (h : clean_client_task_data rows = .ok l) (hmem : row ∈ rows)
    (hid : acceptRow row = true)
    (hY : getCol row "cancelled" = some "Y") :
    clean_client_task_row row ∈ l ∧
    List.lookup "cancelled" (clean_client_task_row row) = some (some "Y") := by
  constructor
  · rw [clean_client_task_data_ok_shape rows l h]
    exact List.mem_map_of_mem _ (List.mem_filter.mpr ⟨hmem, hid⟩)
  · rw [lookup_cancelled_client_row, hY]

/-- C4 witness: the amended statement holds at the concrete cancelled row. -/
theorem C4_amended_no_cancellation_filter_witness :
    clean_client_task_row c4Row ∈ c4L ∧
    List.lookup "cancelled" (clean_client_task_row c4Row) = some (some "Y") :=
  C4_amended_no_cancellation_filter [c4Row] c4L c4Row (by decide) (by decide)
    (by decide) (by decide)

/-! ## Claim C5 -/

def c5Row : Row :=
  [("client_id", "5"), ("start_date", "01/01/2024"), ("start_time", "08:00"),
   ("end_date", "01/01/2024"), ("end_time", "09:00"), ("carer_id", "-2")]

def c5L : List Rec := ([c5Row].filter acceptRow).map clean_rota_schedule_row

/-- C5 counterexample: a rota row whose `carer_id` is the literal `"-2"`
    is mapped into the output with `staff_id` `"-2"` — no uncovered-visit
    sentinel filter exists, and the response carries no `filtered_out`
    field at all (`CleanResult.success` has only the two row counts). -/
theorem C5_counterexample_sentinel_row_kept :
    clean_rota_schedule_data [c5Row] =
      .ok [[("client_name", some ""), ("address", some ""),
            ("client_id", some "5"), ("staff_id", some "-2"), ("staff_name", none),
            ("start_date", some "01/01/2024"), ("start_time", some "08:00"),
            ("end_date", some "01/01/2024"), ("end_time", some "09:00"),
            ("week_number", none), ("day_of_week", some "Monday"),
            ("client_type_text", none)]] ∧
    getCol c5Row "carer_id" = some "-2" :=
  ⟨by decide, by decide⟩

/-- C5 (amended): no uncovered-visit filter exists — a row whose staff
    identifier `carer_id` equals `"-2"` is retained whenever its
    `client_id` is non-empty, its output `staff_id` is `"-2"`, and the
    response reports only `original_rows` and `cleaned_rows` (there is no
    `filtered_out` field). -/
theorem C5_amended_no_sentinel_filter (rows : List Row) (l : List Rec) (row : Row)
    (h : clean_rota_schedule_data rows = .ok l) (hmem : row ∈ rows)
    (hid : acceptRow row = true)
    (hcar : getCol row "carer_id" = some "-2") :
    clean_rota_schedule_row row ∈ l ∧
    List.lookup "staff_id" (clean_rota_schedule_row row) = some (some "-2") := by
  constructor
  · rw [clean_rota_schedule_data_ok_shape rows l h]
    exact List.mem_map_of_mem _ (List.mem_filter.mpr ⟨hmem, hid⟩)
  · rw [lookup_staff_id_rota_row, hcar]

/-- C5 witness: the amended statement holds at the concrete sentinel row. -/
theorem C5_amended_no_sentinel_filter_witness :
    clean_rota_schedule_row c5Row ∈ c5L ∧
    List.lookup "staff_id" (clean_rota_schedule_row c5Row) = some (some "-2") :=
  C5_amended_no_sentinel_filter [c5Row] c5L c5Row (by decide) (by decide)
    (by decide) (by decide)

/-! ## Claim C6 -/

def c6Rows : List Row := [[("foo", "1")]]

/-- C6 counterexample: a structurally bad input (unrecognized layout) makes
    the `/clean` endpoint answer HTTP 500, not 400 — the `ValueError`
    reaches the catch-all handler, which always sets status 500. -/
theorem C6_counterexample_structural_error_is_500 :
    clean_data c6Rows = .failure 500 "Unknown CSV format. Available columns: foo" ∧
    resultStatus (clean_data c6Rows) = 500 ∧ (500 : Nat) ≠ 400 :=
  ⟨by decide, by decide, by decide⟩

/-- C6 (amended): every structural error — any exception out of
    `clean_csv_data`, covering missing required columns, empty input and
    unrecognized layout — makes the endpoint fail as a whole with HTTP
    status 500 and the exception message (which names the missing or
    available columns in the column cases); the failure response carries no
    data array and no counts. -/
theorem C6_amended_structural_errors_are_500 (rows : List Row) (e : PyError)
    (h : clean_csv_data rows = .error e) :
    clean_data rows = .failure 500 (errMsg e) := by
  simp [clean_data, h]

/-- C6 witness: the amended statement holds at the unknown-layout input. -/
theorem C6_amended_structural_errors_are_500_witness :
    clean_data c6Rows =
      .failure 500 (errMsg (.valueError "Unknown CSV format. Available columns: foo")) :=
  C6_amended_structural_errors_are_500 c6Rows
    (.valueError "Unknown CSV format. Available columns: foo") (by decide)

/-! ## Claim C7 -/

def c7Row : Row :=
  [("client_id", "3"), ("client_first_name", "Ann"), ("client_last_name", "Lee"),
   ("address", "2 Way")]

/-- Field names of a client-task output record, in source dict order. -/
def clientRecKeys : List String :=
  ["client_name", "address", "client_id", "staff_id", "staff_name", "start_date",
   "start_time", "end_date", "end_time", "week_number", "day_of_week",
   "client_type_text", "visit_time", "charge", "service_name", "completed",
   "cancelled"]

/-- Field names of a rota-schedule output record, in source dict order. -/
def rotaRecKeys : List String :=
  ["client_name", "address", "client_id", "staff_id", "staff_name", "start_date",
   "start_time", "end_date", "end_time", "week_number", "day_of_week",
   "client_type_text"]

/-- C7 counterexample: an actual client-task output record has 17 fields,
    not the canonical 11 — `end_date`, `visit_time`, `charge`,
    `service_name`, `completed` and `cancelled` are extra keys. -/
theorem C7_counterexample_record_not_eleven_fields :
    clean_client_task_data [c7Row] = .ok [clean_client_task_row c7Row] ∧
    (clean_client_task_row c7Row).map Prod.fst = clientRecKeys ∧
    clientRecKeys.length = 17 ∧ (17 : Nat) ≠ 11 :=
  ⟨by decide, by decide, by decide, by decide⟩

/-- C7 (amended): every rota-schedule record has exactly the 12 fields
    `rotaRecKeys` (the canonical 11 plus `end_date`) and every client-task
    record exactly the 17 fields `clientRecKeys` (those 12 plus
    `visit_time`, `charge`, `service_name`, `completed`, `cancelled`), in
    fixed order, for every input row. -/
theorem C7_amended_record_shapes (row : Row) :
    (clean_rota_schedule_row row).map Prod.fst = rotaRecKeys ∧
    (clean_client_task_row row).map Prod.fst = clientRecKeys ∧
    rotaRecKeys.length = 12 ∧ clientRecKeys.length = 17 :=
  ⟨rfl, rfl, rfl, rfl⟩

/-! ## Claim C8 -/

/-- The ordered marker-column sets of the spec, with the tag each one
    selects: the detector's three membership tests in source order. -/
def marker_sets : List (List String × String) :=
  [(["client_first_name", "client_last_name", "carer_name"], "client_task_report"),
   (["first_name", "last_name", "first_name_1"], "staff_task_report"),
   (["rota_id", "carer_id", "client_id"], "rota_schedule")]

/-- First-match-wins over an ordered list of marker sets, `"unknown"` when
    none matches: the detection rule as the spec words it. -/
def firstMatchTag (cols : Row) : List (List String × String) → String
  | [] => "unknown"
  | (markers, tag) :: rest =>
    if markers.all (fun c => hasCol cols c) then tag else firstMatchTag cols rest

/-- The spec's formulation of the detector, to be compared with the
    source's `detect_csv_format`. -/
def detect_spec (cols : Row) : String := firstMatchTag cols marker_sets

/-- C8: `detect_csv_format` never throws (it is a total function) and
    agrees on every first row with the spec's first-match-wins rule over
    the ordered marker sets, returning `"unknown"` when no set matches. -/
theorem C8_detect_is_first_match_wins (first_row : Row) :
    detect_csv_format first_row = detect_spec first_row := by
  simp only [detect_csv_format, detect_spec, marker_sets, firstMatchTag,
    List.all_cons, List.all_nil, Bool.and_true, Bool.and_assoc]

/-! ## Claim C9 -/

def c9Row : Row :=
  [("client_id", "1"), ("client_first_name", "A"), ("client_last_name", "B"),
   ("address", "X"), ("carer_name", "C"), ("task_date", "01/02/2024"),
   ("start_time", "08:00"), ("end_time", "09:00"), ("week_no", "1"),
   ("dayname", "Monday"), ("client_type", "T"), ("title", "MR"),
   ("first_name", "A"), ("last_name", "B"), ("address_1", "X"),
   ("address_2", ""), ("town", "Y"), ("postcode", "Z"), ("carer_id", "4"),
   ("start_date", "01/02/2024"), ("end_date", "01/02/2024"),
   ("week_number", "1"), ("client_type_text", "T")]

def c9Rows : List Row := [c9Row]

def c9L1 : List Rec := (c9Rows.filter acceptRow).map clean_client_task_row

def c9L2 : List Rec := (c9Rows.filter acceptRow).map clean_rota_schedule_row

/-- C9: whenever a cleaning function succeeds, its output is exactly the
    input row list filtered by the admission test and mapped row-by-row —
    so the output count is at most the input count, every record comes from
    exactly one accepted input row, and output order is input order
    restricted to the accepted rows. -/
theorem C9_output_is_filter_map (rows : List Row) (l₁ l₂ : List Rec)
    (h₁ : clean_client_task_data rows = .ok l₁)
    (h₂ : clean_rota_schedule_data rows = .ok l₂) :
    l₁ = (rows.filter acceptRow).map clean_client_task_row ∧
    l₁.length ≤ rows.length ∧
    l₂ = (rows.filter acceptRow).map clean_rota_schedule_row ∧
    l₂.length ≤ rows.length := by
  have e₁ := clean_client_task_data_ok_shape rows l₁ h₁
  have e₂ := clean_rota_schedule_data_ok_shape rows l₂ h₂
  refine ⟨e₁, ?_, e₂, ?_⟩
  · rw [e₁, List.length_map]
    exact List.length_filter_le _ _
  · rw [e₂, List.length_map]
    exact List.length_filter_le _ _

/-- C9 witness: the filter-map shape at a concrete row list accepted by
    both cleaning functions. -/
theorem C9_output_is_filter_map_witness :
    c9L1 = (c9Rows.filter acceptRow).map clean_client_task_row ∧
    c9L1.length ≤ c9Rows.length ∧
    c9L2 = (c9Rows.filter acceptRow).map clean_rota_schedule_row ∧
    c9L2.length ≤ c9Rows.length :=
  C9_output_is_filter_map c9Rows c9L1 c9L2 (by decide) (by decide)

/-! ## Claim C10 -/

def c10Row : Row :=
  [("client_id", "2"), ("client_first_name", "D"), ("client_last_name", "E"),
   ("address", "W"), ("carer_name", "F"), ("task_date", "bad/date"),
   ("start_time", ""), ("end_time", ""), ("week_no", "n/a"),
   ("dayname", ""), ("client_type", ""), ("title", ""),
   ("first_name", ""), ("last_name", ""), ("address_1", "nan"),
   ("address_2", ""), ("town", ""), ("postcode", ""), ("carer_id", "x"),
   ("start_date", "99/99/9999"), ("end_date", ""), ("week_number", ""),
   ("client_type_text", "")]

/-- C10: when the first row carries every required column of the layout,
    the mapping functions cannot fail — they return the filter-map of the
    rows whatever the cell contents are, because every per-cell coercion
    (date parsing, weekday derivation, name and address assembly, missing
    cells) fails soft; only the structural first-row column check can raise. -/
theorem C10_mappers_never_raise_per_cell (first : Row) (rest : List Row) :
    (clean_client_task_required.all (fun c => hasCol first c) = true →
      clean_client_task_data (first :: rest) =
        .ok (((first :: rest).filter acceptRow).map clean_client_task_row)) ∧
    (clean_rota_required.all (fun c => hasCol first c) = true →
      clean_rota_schedule_data (first :: rest) =
        .ok (((first :: rest).filter acceptRow).map clean_rota_schedule_row)) := by
  constructor
  · intro hall
    have hm : clean_client_task_required.filter (fun c => !(hasCol first c)) = [] :=
      filter_not_nil_of_all _ _ hall
    simp [clean_client_task_data, hm]
  · intro hall
    have hm : clean_rota_required.filter (fun c => !(hasCol first c)) = [] :=
      filter_not_nil_of_all _ _ hall
    simp [clean_rota_schedule_data, hm]

/-- C10 witness: a row full of malformed cell data (bad dates, non-numeric
    identifiers, `nan` address parts) still maps without an error under
    both layouts. -/
theorem C10_mappers_never_raise_per_cell_witness :
    clean_client_task_data [c10Row] =
      .ok (([c10Row].filter acceptRow).map clean_client_task_row) ∧
    clean_rota_schedule_data [c10Row] =
      .ok (([c10Row].filter acceptRow).map clean_rota_schedule_row) :=
  ⟨(C10_mappers_never_raise_per_cell c10Row []).1 (by decide),
   (C10_mappers_never_raise_per_cell c10Row []).2 (by decide)⟩
